import Mathlib

/-!
Verification of the cart subsystem of a small e-commerce application.

The server persists shopping carts in a SQLite table
`carts (id, user_id, product_id, email, title, price, image, quantity, created_at)`
with `UNIQUE(user_id, product_id)`, accessed through callback-style helpers in
`Backend/db.js`.  HTTP routes in `server.js` translate authenticated requests
into those helpers and return the fresh cart snapshot.  The browser components
(`Products.js`, `Cart.js`) keep an optimistic local copy and roll back on
failure.

The embedding below models the store as a list of rows, each helper as a pure
function from the store (plus arguments) to a result together with the
post-call store, JavaScript `undefined`/wrong-typed fields as `Option`, and the
HTTP handlers as functions to a status / body / post-state record.  The REAL
`price` column carries a numeric value that the cart code only copies around,
never computes with, so it is modelled as `Int`.
-/

namespace Ecommerce

/-- Error kinds surfaced by the SQLite-backed store helpers in `db.js`:
argument validation performed before any SQL runs, a NOT NULL column receiving
NULL, and a violation of `UNIQUE(user_id, product_id)`. -/
inductive DbErr where
  | invalidInput
  | notNullViolation
  | uniqueViolation
  deriving DecidableEq, Repr

/-- One row of the `carts` table. -/
structure CartRow where
  user_id : Int
  product_id : Int
  email : String
  title : String
  price : Int
  image : String
  quantity : Int
  deriving DecidableEq, Repr

/-- The `carts` table (the `id` / `created_at` columns play no role in any
cart operation and are omitted). -/
abbrev Store := List CartRow

/-- A JavaScript cart-item object as received by `saveCart` and
`addOrUpdateCartItem`: any field may be `undefined` or of the wrong type,
modelled as `none`. -/
structure JsItem where
  id : Option Int
  title : Option String
  price : Option Int
  image : Option String
  quantity : Option Int
  deriving DecidableEq, Repr

/-- JavaScript `String.prototype.trim`: strip whitespace from both ends.
(Defined over the character list rather than through `String.trim`'s
`Substring` machinery so that concrete calls reduce inside the kernel;
the two agree on the ASCII whitespace relevant here.) -/
def jsTrim (s : String) : String :=
  ⟨((s.data.dropWhile Char.isWhitespace).reverse.dropWhile Char.isWhitespace).reverse⟩

/-- Whether a store call reported an error to its callback. -/
def isErr {α : Type} : Except DbErr α → Bool
  | .error _ => true
  | .ok _ => false

/-- `item.title?.trim() || ""` (also used for `image`). -/
def jsTextOrEmpty : Option String → String
  | some t => jsTrim t
  | none => ""

/-- `typeof item.price === "number" ? item.price : 0`. -/
def jsNumOrZero : Option Int → Int
  | some p => p
  | none => 0

/-- `typeof item.quantity === "number" && item.quantity > 0 ? item.quantity : 1`. -/
def jsQtyOrOne : Option Int → Int
  | some q => if 0 < q then q else 1
  | none => 1

/-- `user_id = ? AND product_id = ?`. -/
def keyMatch (u p : Int) (r : CartRow) : Bool :=
  r.user_id == u && r.product_id == p

/-- Whether the table holds a row for the (user, product) pair. -/
def hasKey (s : Store) (u p : Int) : Bool :=
  s.any (keyMatch u p)

/-- The (first) row for the (user, product) pair. -/
def findKey (s : Store) (u p : Int) : Option CartRow :=
  s.find? (keyMatch u p)

/-- Number of rows for the (user, product) pair. -/
def countKey (s : Store) (u p : Int) : Nat :=
  s.countP (keyMatch u p)

/-- A cart line as returned by `getCartByUserId`
(`SELECT product_id as id, email, title, price, image, quantity`). -/
structure CartItemView where
  id : Int
  email : String
  title : String
  price : Int
  image : String
  quantity : Int
  deriving DecidableEq, Repr

/-- Projection of a row onto the shape returned by `getCartByUserId`. -/
def rowView (r : CartRow) : CartItemView :=
  ⟨r.product_id, r.email, r.title, r.price, r.image, r.quantity⟩

/-- All of a user's cart lines in `getCartByUserId`'s shape. -/
def cartSnapshot (s : Store) (userId : Int) : List CartItemView :=
  (s.filter (fun r => r.user_id == userId)).map rowView

/-- `getCartByUserId(userId, cb)`: rejects a non-positive user id
(`!id || isNaN(id) || id <= 0`), otherwise returns the user's rows. -/
def getCartByUserId (s : Store) (userId : Int) : Except DbErr (List CartItemView) :=
  if userId ≤ 0 then .error .invalidInput
  else .ok (cartSnapshot s userId)

/-- One `INSERT INTO carts (user_id, product_id, email, title, price, image,
quantity)` from `saveCart`'s prepared statement.  `product_id` is NOT NULL, so
an item without `id` fails; a row already holding the (user, product) key
violates `UNIQUE(user_id, product_id)`. -/
def insertCartRow (table : Store) (uid : Int) (email : String) (item : JsItem) :
    Except DbErr Store :=
  match item.id with
  | none => .error .notNullViolation
  | some pid =>
    if hasKey table uid pid then .error .uniqueViolation
    else .ok (table ++ [⟨uid, pid, jsTrim email, jsTextOrEmpty item.title,
      jsNumOrZero item.price, jsTextOrEmpty item.image, jsQtyOrOne item.quantity⟩])

/-- The insert loop inside `saveCart`'s transaction; it stops at the first
failing insert (`if (hasError) break`). -/
def runInserts (table : Store) (uid : Int) (email : String) :
    List JsItem → Except DbErr Store
  | [] => .ok table
  | item :: rest =>
    match insertCartRow table uid email item with
    | .error e => .error e
    | .ok t => runInserts t uid email rest

/-- `saveCart(userId, email, cartItems, cb)`: after argument validation,
`BEGIN TRANSACTION`, `DELETE FROM carts WHERE user_id = ?`, one insert per
supplied item, then `COMMIT`, or `ROLLBACK` (leaving the pre-call table) as
soon as any insert fails.  The second component is the table after the call. -/
def saveCart (s : Store) (userId : Int) (email : String) (cartItems : List JsItem) :
    Except DbErr Unit × Store :=
  if userId ≤ 0 then (.error .invalidInput, s)
  else if email = "" then (.error .invalidInput, s)
  else
    match runInserts (s.filter (fun r => r.user_id != userId)) userId email cartItems with
    | .error e => (.error e, s)
    | .ok t => (.ok (), t)

/-- `addOrUpdateCartItem(userId, email, item, cb)`: validation
(`!item.id` also rejects a zero id), then
`INSERT ... ON CONFLICT(user_id, product_id) DO UPDATE SET
quantity = quantity + excluded.quantity, title = excluded.title,
price = excluded.price, image = excluded.image`
(the conflict branch does not touch `email`). -/
def addOrUpdateCartItem (s : Store) (userId : Int) (email : String) (item : JsItem) :
    Except DbErr Unit × Store :=
  if userId ≤ 0 then (.error .invalidInput, s)
  else if email = "" then (.error .invalidInput, s)
  else
    match item.id with
    | none => (.error .invalidInput, s)
    | some pid =>
      if pid == 0 then (.error .invalidInput, s)
      else if hasKey s userId pid then
        (.ok (), s.map (fun r =>
          if keyMatch userId pid r then
            { r with
              quantity := r.quantity + jsQtyOrOne item.quantity,
              title := jsTextOrEmpty item.title,
              price := jsNumOrZero item.price,
              image := jsTextOrEmpty item.image }
          else r))
      else
        (.ok (), s ++ [⟨userId, pid, jsTrim email, jsTextOrEmpty item.title,
          jsNumOrZero item.price, jsTextOrEmpty item.image, jsQtyOrOne item.quantity⟩])

/-- `updateCartItemQuantity(userId, productId, quantity, cb)`: rejects
non-positive ids and a non-positive quantity
(`!q || isNaN(q) || q <= 0`) before running
`UPDATE carts SET quantity = ? WHERE user_id = ? AND product_id = ?`;
the result is `this.changes > 0`. -/
def updateCartItemQuantity (s : Store) (userId productId quantity : Int) :
    Except DbErr Bool × Store :=
  if userId ≤ 0 then (.error .invalidInput, s)
  else if productId ≤ 0 then (.error .invalidInput, s)
  else if quantity ≤ 0 then (.error .invalidInput, s)
  else
    (.ok (hasKey s userId productId),
     s.map (fun r => if keyMatch userId productId r then { r with quantity := quantity } else r))

/-- `removeCartItem(userId, productId, cb)` (exported also as
`deleteCartItem`): `DELETE FROM carts WHERE user_id = ? AND product_id = ?`;
the result is `this.changes > 0`. -/
def removeCartItem (s : Store) (userId productId : Int) :
    Except DbErr Bool × Store :=
  if userId ≤ 0 then (.error .invalidInput, s)
  else if productId ≤ 0 then (.error .invalidInput, s)
  else (.ok (hasKey s userId productId), s.filter (fun r => !keyMatch userId productId r))

/-- `clearCart(userId, cb)`: `DELETE FROM carts WHERE user_id = ?`;
the result is `this.changes > 0`. -/
def clearCart (s : Store) (userId : Int) : Except DbErr Bool × Store :=
  if userId ≤ 0 then (.error .invalidInput, s)
  else (.ok (s.any (fun r => r.user_id == userId)), s.filter (fun r => r.user_id != userId))

/-- One cart-store mutation, as dispatched by the server routes. -/
inductive CartOp where
  | save (userId : Int) (email : String) (items : List JsItem)
  | upsert (userId : Int) (email : String) (item : JsItem)
  | setQty (userId productId quantity : Int)
  | removeLine (userId productId : Int)
  | clear (userId : Int)
  deriving DecidableEq, Repr

/-- The table after one mutation (a rejected call leaves the table as it was:
every helper validates before writing, and `saveCart` rolls its transaction
back). -/
def applyOp (s : Store) : CartOp → Store
  | .save u e its => (saveCart s u e its).2
  | .upsert u e it => (addOrUpdateCartItem s u e it).2
  | .setQty u p q => (updateCartItemQuantity s u p q).2
  | .removeLine u p => (removeCartItem s u p).2
  | .clear u => (clearCart s u).2

/-- The table after a sequence of mutations. -/
def applyOps (s : Store) (ops : List CartOp) : Store :=
  ops.foldl applyOp s

/-- The user a mutation is invoked for. -/
def opUser : CartOp → Int
  | .save u _ _ => u
  | .upsert u _ _ => u
  | .setQty u _ _ => u
  | .removeLine u _ => u
  | .clear u => u

/-- Each head row's (user, product) key appears in no later row: the
`UNIQUE(user_id, product_id)` invariant as a checkable predicate. -/
def uniqueKeysB : Store → Bool
  | [] => true
  | r :: rest => !hasKey rest r.user_id r.product_id && uniqueKeysB rest

/-- The identity carried by a verified access token (`req.user`). -/
structure AuthUser where
  id : Int
  email : String
  deriving DecidableEq, Repr

/-- The credential state of an incoming request. -/
inductive Credential where
  | missing
  | invalid
  | expired
  | valid (u : AuthUser)
  deriving DecidableEq, Repr

/-- The `authenticateToken` middleware: `401 MISSING_TOKEN` when no bearer
token is present, `403 INVALID_TOKEN` when `jwt.verify` rejects the token
(malformed or expired); otherwise the request proceeds with `req.user`. -/
def authenticateToken : Credential → Except Nat AuthUser
  | .missing => .error 401
  | .invalid => .error 403
  | .expired => .error 403
  | .valid u => .ok u

/-- Outcome of one HTTP cart request: response status, the `items` array of
the JSON body when the response carries one, and the table afterwards. -/
structure ApiResult where
  status : Nat
  items : Option (List CartItemView)
  store : Store
  deriving DecidableEq, Repr

/-- The JSON body of `POST /api/cart`
(`{ productId, quantity, title, price, image }`). -/
structure PostCartBody where
  productId : Option Int
  quantity : Option Int
  title : Option String
  price : Option Int
  image : Option String
  deriving DecidableEq, Repr

/-- `quantity: quantity || 1` in the POST handler: `undefined` and `0` fall
back to `1`; every other number (including a negative one) passes through. -/
def jsOrOne : Option Int → Int
  | some q => if q == 0 then 1 else q
  | none => 1

/-- `POST /api/cart`: after authentication the handler calls
`addOrUpdateCartItem(userId, req.user.email, { id: productId, title, price,
image, quantity: quantity || 1 })` with no validation of its own — a store
error (including a missing `productId`) surfaces as status 500 — and on
success responds with the fresh `getCartByUserId` snapshot. -/
def postCartHandler (s : Store) (cred : Credential) (body : PostCartBody) : ApiResult :=
  match authenticateToken cred with
  | .error st => ⟨st, none, s⟩
  | .ok u =>
    match addOrUpdateCartItem s u.id u.email
        ⟨body.productId, body.title, body.price, body.image, some (jsOrOne body.quantity)⟩ with
    | (.error _, s2) => ⟨500, none, s2⟩
    | (.ok _, s2) =>
      match getCartByUserId s2 u.id with
      | .error _ => ⟨500, none, s2⟩
      | .ok items => ⟨200, some items, s2⟩

/-- `PUT /api/cart/:productId`: `productIdParam` and `quantityBody` are the
handler's `parseInt` results (`none` models NaN).  Order of checks as in the
source: `!userId` → 401, bad product id → 400, bad quantity (`!quantity ||
isNaN(quantity) || quantity < 1`) → 400; then `updateCartItemQuantity`
(the raw-SQL fallback behind `typeof dbModule.updateCartItemQuantity ===
"function"` is unreachable), 404 when it reports no change, otherwise the
fresh snapshot. -/
def putCartHandler (s : Store) (cred : Credential)
    (productIdParam : Option Int) (quantityBody : Option Int) : ApiResult :=
  match authenticateToken cred with
  | .error st => ⟨st, none, s⟩
  | .ok u =>
    if u.id == 0 then ⟨401, none, s⟩
    else
      match productIdParam with
      | none => ⟨400, none, s⟩
      | some pid =>
        if pid == 0 then ⟨400, none, s⟩
        else
          match quantityBody with
          | none => ⟨400, none, s⟩
          | some q =>
            if q == 0 || q < 1 then ⟨400, none, s⟩
            else
              match updateCartItemQuantity s u.id pid q with
              | (.error _, s2) => ⟨500, none, s2⟩
              | (.ok changed, s2) =>
                if changed then
                  match getCartByUserId s2 u.id with
                  | .error _ => ⟨500, none, s2⟩
                  | .ok items => ⟨200, some items, s2⟩
                else ⟨404, none, s2⟩

/-- `DELETE /api/cart/:productId`: the live branch calls `deleteCartItem`
(alias of `removeCartItem`) and returns the fresh snapshot without consulting
the `removed` flag (the 404 exists only in the unreachable raw-SQL fallback). -/
def deleteCartItemHandler (s : Store) (cred : Credential)
    (productIdParam : Option Int) : ApiResult :=
  match authenticateToken cred with
  | .error st => ⟨st, none, s⟩
  | .ok u =>
    if u.id == 0 then ⟨401, none, s⟩
    else
      match productIdParam with
      | none => ⟨400, none, s⟩
      | some pid =>
        if pid == 0 then ⟨400, none, s⟩
        else
          match removeCartItem s u.id pid with
          | (.error _, s2) => ⟨500, none, s2⟩
          | (.ok _, s2) =>
            match getCartByUserId s2 u.id with
            | .error _ => ⟨500, none, s2⟩
            | .ok items => ⟨200, some items, s2⟩

/-- `DELETE /api/cart`: calls `clearCart(req.user.id)` ignoring its boolean
result (clearing an already-empty cart is not an error) and responds with the
fresh snapshot. -/
def deleteCartHandler (s : Store) (cred : Credential) : ApiResult :=
  match authenticateToken cred with
  | .error st => ⟨st, none, s⟩
  | .ok u =>
    match clearCart s u.id with
    | (.error _, s2) => ⟨500, none, s2⟩
    | (.ok _, s2) =>
      match getCartByUserId s2 u.id with
      | .error _ => ⟨500, none, s2⟩
      | .ok items => ⟨200, some items, s2⟩

/-- A product object held by the browser components. -/
structure ClientItem where
  id : Int
  title : String
  price : Int
  image : String
  quantity : Int
  deriving DecidableEq, Repr

/-- The client component's state under JavaScript object semantics: the React
state array holds references into a heap of mutable item objects (a spread
`[...cartItems]` copies the array of references, not the objects). -/
structure ClientState where
  heap : List ClientItem
  cartRefs : List Nat
  deriving DecidableEq, Repr

/-- The cart the user sees: the referenced objects, in array order. -/
def renderCart (st : ClientState) : List ClientItem :=
  st.cartRefs.filterMap (fun ref => st.heap.get? ref)

/-- In-place mutation of the object behind one reference. -/
def modifyAt (h : List ClientItem) (ref : Nat) (f : ClientItem → ClientItem) :
    List ClientItem :=
  match h.get? ref with
  | none => h
  | some it => h.set ref (f it)

/-- `addToCart` in `Products.js` for an authenticated user, with `serverOk`
telling whether the POST succeeded.  When the product is already in the cart,
`updatedCart = [...cartItems]` shares the item objects with `cartItems`, and
`updatedCart[existingItemIndex].quantity += 1` mutates the shared object; the
failure handler's `setCartItems(cartItems)` therefore restores the same
references.  When the product is new, `[...cartItems, {...product, quantity:
1}]` allocates a fresh object. -/
def addToCart (st : ClientState) (product : ClientItem) (serverOk : Bool) :
    ClientState :=
  match st.cartRefs.find? (fun ref =>
      match st.heap.get? ref with
      | some it => it.id == product.id
      | none => false) with
  | some ref =>
    let heap1 := modifyAt st.heap ref (fun it => { it with quantity := it.quantity + 1 })
    if serverOk then
      { heap := heap1, cartRefs := st.cartRefs }
    else
      { heap := heap1, cartRefs := st.cartRefs }
  | none =>
    let newRef := st.heap.length
    let heap1 := st.heap ++ [{ product with quantity := 1 }]
    if serverOk then
      { heap := heap1, cartRefs := st.cartRefs ++ [newRef] }
    else
      { heap := heap1, cartRefs := st.cartRefs }

/-- What the client mutation handlers in `Cart.js` do with a failed request:
`if (err.response?.status === 401) handleUnauthorized() else toast.error(...)`. -/
inductive ClientReaction where
  | reauthenticate
  | genericError
  deriving DecidableEq, Repr

/-- The error branch shared by `updateQuantity`, `removeItem` and `clearCart`
in `Cart.js`. -/
def cartErrorReaction (status : Nat) : ClientReaction :=
  if status == 401 then .reauthenticate else .genericError

/-! ## Basic lemmas about keys, filters and the uniqueness predicate -/

theorem keyMatch_iff {u p : Int} {r : CartRow} :
    keyMatch u p r = true ↔ r.user_id = u ∧ r.product_id = p := by
  simp [keyMatch]

theorem hasKey_iff {s : Store} {u p : Int} :
    hasKey s u p = true ↔ ∃ r ∈ s, keyMatch u p r = true := by
  simp [hasKey, List.any_eq_true]

theorem hasKey_append (s t : Store) (u p : Int) :
    hasKey (s ++ t) u p = (hasKey s u p || hasKey t u p) :=
  List.any_append

theorem hasKey_filter_le {s : Store} {pred : CartRow → Bool} {u p : Int}
    (h : hasKey (s.filter pred) u p = true) : hasKey s u p = true := by
  rw [hasKey_iff] at h ⊢
  obtain ⟨r, hmem, hkey⟩ := h
  exact ⟨r, (List.mem_filter.mp hmem).1, hkey⟩

theorem hasKey_map_keys {f : CartRow → CartRow}
    (hf : ∀ r, (f r).user_id = r.user_id ∧ (f r).product_id = r.product_id)
    (s : Store) (u p : Int) : hasKey (s.map f) u p = hasKey s u p := by
  unfold hasKey
  rw [List.any_map]
  congr 1
  funext r
  simp only [Function.comp_apply, keyMatch, (hf r).1, (hf r).2]

theorem countKey_append (s t : Store) (u p : Int) :
    countKey (s ++ t) u p = countKey s u p + countKey t u p :=
  List.countP_append _ _ _

theorem countKey_map_keys {f : CartRow → CartRow}
    (hf : ∀ r, (f r).user_id = r.user_id ∧ (f r).product_id = r.product_id)
    (s : Store) (u p : Int) : countKey (s.map f) u p = countKey s u p := by
  unfold countKey
  rw [List.countP_map]
  apply List.countP_congr
  intro r _
  simp only [Function.comp_apply, keyMatch, (hf r).1, (hf r).2]

theorem hasKey_true_iff_countKey_pos {s : Store} {u p : Int} :
    hasKey s u p = true ↔ 0 < countKey s u p := by
  rw [hasKey_iff, countKey, List.countP_pos_iff]

theorem uniqueKeysB_cons {r : CartRow} {rest : Store} :
    uniqueKeysB (r :: rest) = (!hasKey rest r.user_id r.product_id && uniqueKeysB rest) :=
  rfl

theorem uniqueKeysB_filter (pred : CartRow → Bool) :
    ∀ s : Store, uniqueKeysB s = true → uniqueKeysB (s.filter pred) = true := by
  intro s
  induction s with
  | nil => intro _; rfl
  | cons r rest ih =>
    intro h
    rw [uniqueKeysB_cons, Bool.and_eq_true] at h
    rw [List.filter_cons]
    by_cases hp : pred r = true
    · rw [if_pos hp, uniqueKeysB_cons, Bool.and_eq_true]
      refine ⟨?_, ih h.2⟩
      rw [Bool.not_eq_true']
      by_contra hcon
      rw [Bool.not_eq_false] at hcon
      have := hasKey_filter_le hcon
      rw [this] at h
      simp at h
    · rw [if_neg hp]
      exact ih h.2

theorem uniqueKeysB_map_keys {f : CartRow → CartRow}
    (hf : ∀ r, (f r).user_id = r.user_id ∧ (f r).product_id = r.product_id) :
    ∀ s : Store, uniqueKeysB s = true → uniqueKeysB (s.map f) = true := by
  intro s
  induction s with
  | nil => intro _; rfl
  | cons r rest ih =>
    intro h
    rw [uniqueKeysB_cons, Bool.and_eq_true] at h
    rw [List.map_cons, uniqueKeysB_cons, Bool.and_eq_true]
    refine ⟨?_, ih h.2⟩
    rw [(hf r).1, (hf r).2, hasKey_map_keys hf]
    exact h.1

theorem uniqueKeysB_append_row :
    ∀ (s : Store) (row : CartRow), uniqueKeysB s = true →
      hasKey s row.user_id row.product_id = false → uniqueKeysB (s ++ [row]) = true := by
  intro s
  induction s with
  | nil =>
    intro row _ _
    simp [uniqueKeysB, hasKey]
  | cons r rest ih =>
    intro row h hkey
    rw [uniqueKeysB_cons, Bool.and_eq_true, Bool.not_eq_true'] at h
    have hkeyr : keyMatch row.user_id row.product_id r = false := by
      by_contra hc
      rw [Bool.not_eq_false] at hc
      have hk : hasKey (r :: rest) row.user_id row.product_id = true :=
        hasKey_iff.mpr ⟨r, List.mem_cons_self r rest, hc⟩
      rw [hk] at hkey; cases hkey
    have hkeyrest : hasKey rest row.user_id row.product_id = false := by
      by_contra hc
      rw [Bool.not_eq_false, hasKey_iff] at hc
      obtain ⟨x, hx, hkx⟩ := hc
      have hk : hasKey (r :: rest) row.user_id row.product_id = true :=
        hasKey_iff.mpr ⟨x, List.mem_cons_of_mem r hx, hkx⟩
      rw [hk] at hkey; cases hkey
    rw [List.cons_append, uniqueKeysB_cons, Bool.and_eq_true, Bool.not_eq_true']
    refine ⟨?_, ih row h.2 hkeyrest⟩
    rw [hasKey_append, Bool.or_eq_false_iff]
    refine ⟨h.1, ?_⟩
    have hrrow : keyMatch r.user_id r.product_id row = false := by
      rw [Bool.eq_false_iff]
      intro hc
      rw [keyMatch_iff] at hc
      have hk : keyMatch row.user_id row.product_id r = true :=
        keyMatch_iff.mpr ⟨hc.1.symm, hc.2.symm⟩
      rw [hk] at hkeyr; cases hkeyr
    unfold hasKey
    simp only [List.any_cons, List.any_nil, Bool.or_false]
    exact hrrow

/-! ## Lemmas about the `saveCart` transaction -/

theorem insertCartRow_ok {t : Store} {uid : Int} {email : String} {item : JsItem}
    {t2 : Store} (h : insertCartRow t uid email item = .ok t2) :
    ∃ pid, item.id = some pid ∧ hasKey t uid pid = false ∧
      t2 = t ++ [⟨uid, pid, jsTrim email, jsTextOrEmpty item.title, jsNumOrZero item.price,
        jsTextOrEmpty item.image, jsQtyOrOne item.quantity⟩] := by
  unfold insertCartRow at h
  cases hid : item.id with
  | none => rw [hid] at h; cases h
  | some pid =>
    rw [hid] at h
    dsimp only at h
    by_cases hk : hasKey t uid pid = true
    · rw [if_pos hk] at h; cases h
    · rw [if_neg hk] at h
      exact ⟨pid, rfl, Bool.not_eq_true _ ▸ hk, (Except.ok.inj h).symm⟩

theorem runInserts_malformed_fails (uid : Int) (email : String) :
    ∀ (items : List JsItem) (t : Store), (∃ it ∈ items, it.id = none) →
      ∃ e, runInserts t uid email items = .error e := by
  intro items
  induction items with
  | nil =>
    intro t h
    obtain ⟨it, hmem, _⟩ := h
    cases hmem
  | cons item rest ih =>
    intro t h
    obtain ⟨it, hmem, hid⟩ := h
    cases hmem with
    | head =>
      exact ⟨.notNullViolation, by simp [runInserts, insertCartRow, hid]⟩
    | tail _ hmem2 =>
      cases hcase : insertCartRow t uid email item with
      | error e => exact ⟨e, by simp [runInserts, hcase]⟩
      | ok t1 =>
        obtain ⟨e, he⟩ := ih t1 ⟨it, hmem2, hid⟩
        exact ⟨e, by simp [runInserts, hcase, he]⟩

theorem runInserts_unique (uid : Int) (email : String) :
    ∀ (items : List JsItem) (t t2 : Store), uniqueKeysB t = true →
      runInserts t uid email items = .ok t2 → uniqueKeysB t2 = true := by
  intro items
  induction items with
  | nil =>
    intro t t2 huniq h
    cases h
    exact huniq
  | cons item rest ih =>
    intro t t2 huniq h
    unfold runInserts at h
    cases hcase : insertCartRow t uid email item with
    | error e => rw [hcase] at h; cases h
    | ok t1 =>
      rw [hcase] at h
      obtain ⟨pid, _, hkey, hrow⟩ := insertCartRow_ok hcase
      have h1 : uniqueKeysB t1 = true := by
        rw [hrow]
        exact uniqueKeysB_append_row t _ huniq hkey
      exact ih t1 t2 h1 h

theorem runInserts_filter_other {uid v : Int} (hne : v ≠ uid) (email : String) :
    ∀ (items : List JsItem) (t t2 : Store), runInserts t uid email items = .ok t2 →
      t2.filter (fun r => r.user_id == v) = t.filter (fun r => r.user_id == v) := by
  intro items
  induction items with
  | nil =>
    intro t t2 h
    cases h
    rfl
  | cons item rest ih =>
    intro t t2 h
    unfold runInserts at h
    cases hcase : insertCartRow t uid email item with
    | error e => rw [hcase] at h; cases h
    | ok t1 =>
      rw [hcase] at h
      obtain ⟨pid, _, _, hrow⟩ := insertCartRow_ok hcase
      rw [ih t1 t2 h, hrow, List.filter_append]
      have hv : ((uid : Int) == v) = false := by
        simp only [beq_eq_false_iff_ne, ne_eq]
        exact fun hc => hne hc.symm
      simp [hv]

/-! ## Preservation of the uniqueness invariant by every store operation -/

theorem ite_keys {c : CartRow → Bool} {g : CartRow → CartRow}
    (hg : ∀ r, (g r).user_id = r.user_id ∧ (g r).product_id = r.product_id) :
    ∀ r : CartRow, ((if c r then g r else r).user_id = r.user_id ∧
      (if c r then g r else r).product_id = r.product_id) := by
  intro r
  by_cases h : c r = true
  · simp [h, hg r]
  · rw [Bool.not_eq_true] at h
    simp [h]

theorem addOrUpdate_unique (s : Store) (u : Int) (e : String) (it : JsItem)
    (h : uniqueKeysB s = true) : uniqueKeysB (addOrUpdateCartItem s u e it).2 = true := by
  unfold addOrUpdateCartItem
  split
  · exact h
  · split
    · exact h
    · split
      · exact h
      · rename_i pid hpid
        split
        · exact h
        · split
          · dsimp only
            apply uniqueKeysB_map_keys _ s h
            intro r
            by_cases hc : keyMatch u pid r = true
            · rw [if_pos hc]; exact ⟨rfl, rfl⟩
            · rw [if_neg hc]; exact ⟨rfl, rfl⟩
          · rename_i hk
            exact uniqueKeysB_append_row s _ h (Bool.not_eq_true _ ▸ hk)

theorem updateQty_unique (s : Store) (u p q : Int) (h : uniqueKeysB s = true) :
    uniqueKeysB (updateCartItemQuantity s u p q).2 = true := by
  unfold updateCartItemQuantity
  split
  · exact h
  · split
    · exact h
    · split
      · exact h
      · dsimp only
        apply uniqueKeysB_map_keys _ s h
        intro r
        by_cases hc : keyMatch u p r = true
        · rw [if_pos hc]; exact ⟨rfl, rfl⟩
        · rw [if_neg hc]; exact ⟨rfl, rfl⟩

theorem remove_unique (s : Store) (u p : Int) (h : uniqueKeysB s = true) :
    uniqueKeysB (removeCartItem s u p).2 = true := by
  unfold removeCartItem
  split
  · exact h
  · split
    · exact h
    · exact uniqueKeysB_filter _ s h

theorem clear_unique (s : Store) (u : Int) (h : uniqueKeysB s = true) :
    uniqueKeysB (clearCart s u).2 = true := by
  unfold clearCart
  split
  · exact h
  · exact uniqueKeysB_filter _ s h

theorem save_unique (s : Store) (u : Int) (e : String) (its : List JsItem)
    (h : uniqueKeysB s = true) : uniqueKeysB (saveCart s u e its).2 = true := by
  unfold saveCart
  split
  · exact h
  · split
    · exact h
    · cases hrun : runInserts (s.filter fun r => r.user_id != u) u e its with
      | error e2 => exact h
      | ok t => exact runInserts_unique u e its _ t (uniqueKeysB_filter _ s h) hrun

theorem applyOp_unique (s : Store) (op : CartOp) (h : uniqueKeysB s = true) :
    uniqueKeysB (applyOp s op) = true := by
  cases op with
  | save u e its => exact save_unique s u e its h
  | upsert u e it => exact addOrUpdate_unique s u e it h
  | setQty u p q => exact updateQty_unique s u p q h
  | removeLine u p => exact remove_unique s u p h
  | clear u => exact clear_unique s u h

theorem applyOps_unique (ops : List CartOp) :
    ∀ s : Store, uniqueKeysB s = true → uniqueKeysB (applyOps s ops) = true := by
  induction ops with
  | nil => intro s h; exact h
  | cons op rest ih =>
    intro s h
    exact ih (applyOp s op) (applyOp_unique s op h)

/-! ## Frame lemmas: operations for one user leave other users' rows alone -/

theorem filter_user_of_pred {v : Int} {pred : CartRow → Bool}
    (h : ∀ r : CartRow, r.user_id = v → pred r = true) :
    ∀ s : Store, (s.filter pred).filter (fun r => r.user_id == v) =
      s.filter (fun r => r.user_id == v) := by
  intro s
  induction s with
  | nil => rfl
  | cons r rest ih =>
    rw [List.filter_cons]
    by_cases hv : r.user_id = v
    · rw [if_pos (h r hv), List.filter_cons, List.filter_cons, if_pos (by simp [hv]),
        if_pos (by simp [hv]), ih]
    · by_cases hp : pred r = true
      · rw [if_pos hp, List.filter_cons, List.filter_cons, if_neg (by simp [hv]),
          if_neg (by simp [hv]), ih]
      · rw [if_neg hp, List.filter_cons, if_neg (by simp [hv]), ih]

theorem filter_user_map {v : Int} {f : CartRow → CartRow}
    (hfix : ∀ r : CartRow, r.user_id = v → f r = r)
    (huser : ∀ r : CartRow, (f r).user_id = r.user_id) :
    ∀ s : Store, (s.map f).filter (fun r => r.user_id == v) =
      s.filter (fun r => r.user_id == v) := by
  intro s
  induction s with
  | nil => rfl
  | cons r rest ih =>
    rw [List.map_cons, List.filter_cons, List.filter_cons]
    by_cases hv : r.user_id = v
    · rw [hfix r hv, if_pos (by simp [hv]), if_pos (by simp [hv]), ih]
    · have h1 : ((f r).user_id == v) = false := by rw [huser r]; simp [hv]
      rw [if_neg (by simp [h1]), if_neg (by simp [hv]), ih]

theorem filter_user_append_other {v : Int} (s : Store) (row : CartRow)
    (h : row.user_id ≠ v) :
    (s ++ [row]).filter (fun r => r.user_id == v) =
      s.filter (fun r => r.user_id == v) := by
  rw [List.filter_append]
  have h1 : (row.user_id == v) = false := by simp [h]
  simp [List.filter_cons, h1]

/-! ## `findKey` after an update or an insert -/

theorem findKey_map_update {u p : Int} {g : CartRow → CartRow}
    (hg : ∀ r, keyMatch u p r = true → keyMatch u p (g r) = true) :
    ∀ (s : Store) (r : CartRow), findKey s u p = some r →
      findKey (s.map (fun x => if keyMatch u p x then g x else x)) u p = some (g r) := by
  intro s
  induction s with
  | nil => intro r h; cases h
  | cons x rest ih =>
    intro r h
    simp only [findKey] at h ⊢
    rw [List.map_cons]
    by_cases hx : keyMatch u p x = true
    · rw [List.find?_cons_of_pos _ hx] at h
      rw [if_pos hx, List.find?_cons_of_pos _ (hg x hx), Option.some.inj h]
    · rw [List.find?_cons_of_neg _ hx] at h
      rw [if_neg hx, List.find?_cons_of_neg _ hx]
      exact ih r h

theorem findKey_none_map_id {u p : Int} (g : CartRow → CartRow) :
    ∀ s : Store, findKey s u p = none →
      s.map (fun x => if keyMatch u p x then g x else x) = s := by
  intro s
  induction s with
  | nil => intro _; rfl
  | cons x rest ih =>
    intro h
    simp only [findKey] at h ih
    by_cases hx : keyMatch u p x = true
    · rw [List.find?_cons_of_pos _ hx] at h; cases h
    · rw [List.find?_cons_of_neg _ hx] at h
      rw [List.map_cons, if_neg hx, ih h]

theorem hasKey_of_findKey_some {s : Store} {u p : Int} {r : CartRow}
    (h : findKey s u p = some r) : hasKey s u p = true := by
  rw [hasKey_iff]
  exact ⟨r, List.mem_of_find?_eq_some h, List.find?_some h⟩

theorem hasKey_false_of_findKey_none {s : Store} {u p : Int}
    (h : findKey s u p = none) : hasKey s u p = false := by
  rw [Bool.eq_false_iff]
  intro hc
  rw [hasKey_iff] at hc
  obtain ⟨r, hr, hk⟩ := hc
  have h2 := List.find?_eq_none.mp h r hr
  exact h2 hk

theorem findKey_append_of_none {s : Store} {u p : Int} (row : CartRow)
    (h : findKey s u p = none) :
    findKey (s ++ [row]) u p = if keyMatch u p row then some row else none := by
  simp only [findKey] at h ⊢
  rw [List.find?_append, h]
  by_cases hk : keyMatch u p row = true
  · rw [if_pos hk]
    simp [List.find?_cons_of_pos _ hk]
  · rw [if_neg hk]
    simp [List.find?_cons_of_neg _ hk]

/-! ## The snapshot returned by `getCartByUserId` -/

theorem getCart_ok_snapshot {s : Store} {uid : Int} {items : List CartItemView}
    (h : getCartByUserId s uid = .ok items) : items = cartSnapshot s uid := by
  unfold getCartByUserId at h
  split at h
  · cases h
  · exact (Except.ok.inj h).symm

theorem getCart_ok_of_pos {s : Store} {uid : Int} (h : 0 < uid) :
    getCartByUserId s uid = .ok (cartSnapshot s uid) := by
  unfold getCartByUserId
  rw [if_neg (by omega)]

theorem filter_ne_then_eq (s : Store) (v : Int) :
    (s.filter (fun r => r.user_id != v)).filter (fun r => r.user_id == v) = [] := by
  induction s with
  | nil => rfl
  | cons r rest ih =>
    rw [List.filter_cons]
    by_cases hv : r.user_id = v
    · rw [if_neg (by simp [hv])]
      exact ih
    · rw [if_pos (by simp [hv]), List.filter_cons, if_neg (by simp [hv])]
      exact ih

theorem filter_ne_idem (s : Store) (v : Int) :
    (s.filter (fun r => r.user_id != v)).filter (fun r => r.user_id != v) =
      s.filter (fun r => r.user_id != v) := by
  induction s with
  | nil => rfl
  | cons r rest ih =>
    rw [List.filter_cons]
    by_cases hv : r.user_id = v
    · rw [if_neg (by simp [hv])]
      exact ih
    · rw [if_pos (by simp [hv]), List.filter_cons, if_pos (by simp [hv]), ih]

/-! ## Shape of `addOrUpdateCartItem` and `updateCartItemQuantity` on valid input -/

theorem addOrUpdate_valid {s : Store} {uid : Int} {email : String} {item : JsItem}
    {pid : Int} (hu : 0 < uid) (he : email ≠ "") (hid : item.id = some pid)
    (hp : pid ≠ 0) :
    addOrUpdateCartItem s uid email item =
      if hasKey s uid pid then
        (.ok (), s.map (fun r =>
          if keyMatch uid pid r then
            { r with
              quantity := r.quantity + jsQtyOrOne item.quantity,
              title := jsTextOrEmpty item.title,
              price := jsNumOrZero item.price,
              image := jsTextOrEmpty item.image }
          else r))
      else
        (.ok (), s ++ [⟨uid, pid, jsTrim email, jsTextOrEmpty item.title,
          jsNumOrZero item.price, jsTextOrEmpty item.image, jsQtyOrOne item.quantity⟩]) := by
  unfold addOrUpdateCartItem
  rw [if_neg (by omega), if_neg he, hid]
  dsimp only
  rw [if_neg (by simp [hp])]

theorem upsert_countKey {s : Store} {uid : Int} {email : String} {item : JsItem}
    {pid : Int} (hu : 0 < uid) (he : email ≠ "") (hid : item.id = some pid)
    (hp : pid ≠ 0) :
    countKey (addOrUpdateCartItem s uid email item).2 uid pid =
      if hasKey s uid pid then countKey s uid pid else countKey s uid pid + 1 := by
  rw [addOrUpdate_valid hu he hid hp]
  by_cases hk : hasKey s uid pid = true
  · rw [if_pos hk, if_pos hk]
    dsimp only
    apply countKey_map_keys
    intro r
    by_cases hc : keyMatch uid pid r = true
    · rw [if_pos hc]; exact ⟨rfl, rfl⟩
    · rw [if_neg hc]; exact ⟨rfl, rfl⟩
  · rw [if_neg hk, if_neg hk]
    dsimp only
    rw [countKey_append]
    congr 1
    simp [countKey, keyMatch]

theorem upsertFold_keeps_one {uid : Int} {email : String} {pid : Int}
    (hu : 0 < uid) (he : email ≠ "") (hp : pid ≠ 0) :
    ∀ (items : List JsItem) (s : Store), (∀ it ∈ items, it.id = some pid) →
      countKey s uid pid = 1 →
      countKey (applyOps s (items.map (CartOp.upsert uid email))) uid pid = 1 := by
  intro items
  induction items with
  | nil => intro s _ h1; exact h1
  | cons it rest ih =>
    intro s hall h1
    have hstep : countKey (applyOp s (CartOp.upsert uid email it)) uid pid = 1 := by
      show countKey (addOrUpdateCartItem s uid email it).2 uid pid = 1
      rw [upsert_countKey hu he (hall it (List.mem_cons_self it rest)) hp,
        if_pos (hasKey_true_iff_countKey_pos.mpr (by omega))]
      exact h1
    show countKey (applyOps (applyOp s (CartOp.upsert uid email it))
      (rest.map (CartOp.upsert uid email))) uid pid = 1
    exact ih _ (fun x hx => hall x (List.mem_cons_of_mem it hx)) hstep

theorem updateQty_valid {s : Store} {uid pid q : Int}
    (hu : 0 < uid) (hp : 0 < pid) (hq : 0 < q) :
    updateCartItemQuantity s uid pid q =
      (.ok (hasKey s uid pid),
       s.map (fun r => if keyMatch uid pid r then { r with quantity := q } else r)) := by
  unfold updateCartItemQuantity
  rw [if_neg (by omega), if_neg (by omega), if_neg (by omega)]

theorem deleteCart_ok (s : Store) (u : AuthUser) (hu : 0 < u.id) :
    deleteCartHandler s (.valid u) =
      ⟨200, some [], s.filter (fun r => r.user_id != u.id)⟩ := by
  have hsnap : cartSnapshot (s.filter (fun r => r.user_id != u.id)) u.id = [] := by
    unfold cartSnapshot
    rw [filter_ne_then_eq]
    rfl
  unfold deleteCartHandler authenticateToken
  dsimp only
  unfold clearCart
  rw [if_neg (by omega)]
  dsimp only
  rw [getCart_ok_of_pos hu]
  dsimp only
  rw [hsnap]

/-! ## Claim theorems -/

/-- C1: `saveCart` (the replaceAll operation) is atomic.  Whenever the call
reports an error, the table after the call is exactly the pre-call table — no
partial set of inserted lines is visible — and in particular a list containing
a malformed line (one with no product id) always makes the call fail. -/
theorem claim_C1_saveCart_atomic (s : Store) (userId : Int) (email : String)
    (cartItems : List JsItem) :
    (isErr (saveCart s userId email cartItems).1 = true →
      (saveCart s userId email cartItems).2 = s) ∧
    (0 < userId → email ≠ "" → (∃ it ∈ cartItems, it.id = none) →
      isErr (saveCart s userId email cartItems).1 = true) := by
  by_cases h1 : userId ≤ 0
  · constructor
    · intro _
      simp [saveCart, h1]
    · intro hu _ _
      exact absurd hu (by omega)
  · by_cases h2 : email = ""
    · constructor
      · intro _
        simp [saveCart, h1, h2]
      · intro _ he _
        exact absurd h2 he
    · cases hrun : runInserts (s.filter fun r => r.user_id != userId) userId email cartItems with
      | error e =>
        constructor
        · intro _
          simp [saveCart, h1, h2, hrun]
        · intro _ _ _
          simp [saveCart, h1, h2, hrun, isErr]
      | ok t =>
        constructor
        · intro herr
          exfalso
          simp [saveCart, h1, h2, hrun, isErr] at herr
        · intro _ _ hmal
          obtain ⟨e, he⟩ := runInserts_malformed_fails userId email cartItems _ hmal
          rw [hrun] at he
          cases he

/-- Witness for C1: replacing the cart of user 1 with a list whose second
line lacks a product id fails and leaves the stored row untouched. -/
theorem claim_C1_saveCart_atomic_witness :
    isErr (saveCart [⟨1, 2, "e", "a", 10, "i", 1⟩] 1 "e"
        [⟨some 3, none, none, none, none⟩, ⟨none, none, none, none, none⟩]).1 = true ∧
    (saveCart [⟨1, 2, "e", "a", 10, "i", 1⟩] 1 "e"
        [⟨some 3, none, none, none, none⟩, ⟨none, none, none, none, none⟩]).2 =
      [⟨1, 2, "e", "a", 10, "i", 1⟩] := by
  have h := claim_C1_saveCart_atomic [⟨1, 2, "e", "a", 10, "i", 1⟩] 1 "e"
      [⟨some 3, none, none, none, none⟩, ⟨none, none, none, none, none⟩]
  have herr := h.2 (by decide) (by decide)
      ⟨⟨none, none, none, none, none⟩, by decide, rfl⟩
  exact ⟨herr, h.1 herr⟩

/-- C2: uniqueness.  Starting from an empty table, any sequence of store
mutations leaves at most one row per (user, product) pair, and a nonempty
sequence of valid upserts all targeting the same (user, product) pair leaves
exactly one row for that pair. -/
theorem claim_C2_cart_uniqueness :
    (∀ ops : List CartOp, uniqueKeysB (applyOps [] ops) = true) ∧
    (∀ (uid : Int) (email : String) (pid : Int) (items : List JsItem),
      0 < uid → email ≠ "" → pid ≠ 0 → items ≠ [] →
      (∀ it ∈ items, it.id = some pid) →
      countKey (applyOps [] (items.map (CartOp.upsert uid email))) uid pid = 1) := by
  constructor
  · intro ops
    exact applyOps_unique ops [] rfl
  · intro uid email pid items hu he hp hne hall
    cases items with
    | nil => exact absurd rfl hne
    | cons it rest =>
      rw [List.map_cons]
      have hstep : countKey (applyOp [] (CartOp.upsert uid email it)) uid pid = 1 := by
        show countKey (addOrUpdateCartItem [] uid email it).2 uid pid = 1
        rw [upsert_countKey hu he (hall it (List.mem_cons_self it rest)) hp]
        rfl
      show countKey (applyOps (applyOp [] (CartOp.upsert uid email it))
        (rest.map (CartOp.upsert uid email))) uid pid = 1
      exact upsertFold_keeps_one hu he hp rest _
        (fun x hx => hall x (List.mem_cons_of_mem it hx)) hstep

/-- Witness for C2: a concrete mixed history keeps keys unique, and two
upserts of product 2 for user 1 leave exactly one row for that pair. -/
theorem claim_C2_cart_uniqueness_witness :
    uniqueKeysB (applyOps [] [CartOp.upsert 1 "e" ⟨some 2, some "t", some 5, some "i", some 1⟩,
      CartOp.setQty 1 2 4, CartOp.upsert 1 "e" ⟨some 3, some "u", some 7, none, some 2⟩,
      CartOp.removeLine 1 2]) = true ∧
    countKey (applyOps [] ([(⟨some 2, some "t", some 5, some "i", some 1⟩ : JsItem),
      ⟨some 2, some "u", some 7, none, some 2⟩].map (CartOp.upsert 1 "e"))) 1 2 = 1 :=
  ⟨claim_C2_cart_uniqueness.1 _,
   claim_C2_cart_uniqueness.2 1 "e" 2 _ (by decide) (by decide) (by decide)
     (by decide) (by decide)⟩

/-- C3 counterexample: the claim "the stored title, price, and image equal
the values supplied by the second call" fails on a title with surrounding
whitespace — `addOrUpdateCartItem` stores `item.title?.trim() || ""`, so after
upserting (user 1, product 2) with title `"a"` and then with title `" b "`,
the stored title is `"b"`, not the supplied `" b "` (while quantity is
additive as claimed: 1 + 2 = 3). -/
theorem claim_C3_lww_counterexample :
    (findKey (addOrUpdateCartItem
        (addOrUpdateCartItem [] 1 "e" ⟨some 2, some "a", some 10, some "i", some 1⟩).2
        1 "e" ⟨some 2, some " b ", some 20, some "j", some 2⟩).2 1 2).map
      (fun r => r.quantity) = some 3 ∧
    (findKey (addOrUpdateCartItem
        (addOrUpdateCartItem [] 1 "e" ⟨some 2, some "a", some 10, some "i", some 1⟩).2
        1 "e" ⟨some 2, some " b ", some 20, some "j", some 2⟩).2 1 2).map
      (fun r => r.title) ≠ some " b " := by
  decide

/-- C3 (amended): upsert is additive on quantity and last-writer-wins on
metadata, with the store's write normalization: on a conflict the stored
quantity becomes `existing + q2` and title/price/image are overwritten with
the second call's values as normalized by the store (title and image trimmed,
empty when absent; price 0 when non-numeric); with no existing line a new row
is inserted carrying the normalized supplied values. -/
theorem claim_C3_upsert_additive_lww (s : Store) (uid : Int) (email : String)
    (item : JsItem) (pid q2 : Int) (hu : 0 < uid) (he : email ≠ "")
    (hid : item.id = some pid) (hp : pid ≠ 0) (hq : item.quantity = some q2)
    (hq2 : 0 < q2) :
    (∀ r : CartRow, findKey s uid pid = some r →
      (addOrUpdateCartItem s uid email item).1 = .ok () ∧
      findKey (addOrUpdateCartItem s uid email item).2 uid pid =
        some { r with
          quantity := r.quantity + q2,
          title := jsTextOrEmpty item.title,
          price := jsNumOrZero item.price,
          image := jsTextOrEmpty item.image }) ∧
    (findKey s uid pid = none →
      (addOrUpdateCartItem s uid email item).1 = .ok () ∧
      (addOrUpdateCartItem s uid email item).2 =
        s ++ [⟨uid, pid, jsTrim email, jsTextOrEmpty item.title, jsNumOrZero item.price,
          jsTextOrEmpty item.image, q2⟩]) := by
  have hqty : jsQtyOrOne item.quantity = q2 := by
    rw [hq]
    simp [jsQtyOrOne, hq2]
  constructor
  · intro r hr
    have hk := hasKey_of_findKey_some hr
    rw [addOrUpdate_valid hu he hid hp, if_pos hk]
    refine ⟨rfl, ?_⟩
    dsimp only
    simp only [hqty]
    apply findKey_map_update _ s r hr
    intro x hx
    exact hx
  · intro hnone
    have hk := hasKey_false_of_findKey_none hnone
    rw [addOrUpdate_valid hu he hid hp, if_neg (by simp [hk])]
    refine ⟨rfl, ?_⟩
    dsimp only
    rw [hqty]

/-- Witness for the amended C3 at a concrete input: upserting quantity 1 then
quantity 2 with fresh metadata yields quantity 3, title/price/image from the
second call (title trimmed). -/
theorem claim_C3_upsert_additive_lww_witness :
    (addOrUpdateCartItem [⟨1, 2, "e", "a", 10, "i", 1⟩] 1 "e"
        ⟨some 2, some " b ", some 20, some "j", some 2⟩).1 = .ok () ∧
    findKey (addOrUpdateCartItem [⟨1, 2, "e", "a", 10, "i", 1⟩] 1 "e"
        ⟨some 2, some " b ", some 20, some "j", some 2⟩).2 1 2 =
      some ⟨1, 2, "e", "b", 20, "j", 3⟩ := by
  have h := (claim_C3_upsert_additive_lww [⟨1, 2, "e", "a", 10, "i", 1⟩] 1 "e"
      ⟨some 2, some " b ", some 20, some "j", some 2⟩ 2 2 (by decide) (by decide) rfl
      (by decide) rfl (by decide)).1 ⟨1, 2, "e", "a", 10, "i", 1⟩ (by decide)
  refine ⟨h.1, ?_⟩
  rw [h.2]
  decide

/-- C4: quantity floor on `updateCartItemQuantity` (setQuantity).  A
non-positive quantity always yields a validation error with the table
untouched; a positive quantity (with valid ids) succeeds and replaces the
stored quantity of the addressed line exactly, not additively.  At the API,
a non-numeric quantity (NaN after `parseInt`) is rejected with status 400
before any store call, leaving the table unchanged. -/
theorem claim_C4_setQuantity_floor (s : Store) (uid pid q : Int) :
    (q ≤ 0 → updateCartItemQuantity s uid pid q = (.error .invalidInput, s)) ∧
    (0 < uid → 0 < pid → 0 < q →
      (updateCartItemQuantity s uid pid q).1 = .ok (hasKey s uid pid) ∧
      findKey (updateCartItemQuantity s uid pid q).2 uid pid =
        (findKey s uid pid).map (fun r => { r with quantity := q })) ∧
    (∀ (u : AuthUser) (d : Option Int), u.id ≠ 0 →
      putCartHandler s (.valid u) d none = ⟨400, none, s⟩) := by
  refine ⟨?_, ?_, ?_⟩
  · intro hq
    unfold updateCartItemQuantity
    by_cases h1 : uid ≤ 0
    · rw [if_pos h1]
    · rw [if_neg h1]
      by_cases h2 : pid ≤ 0
      · rw [if_pos h2]
      · rw [if_neg h2, if_pos hq]
  · intro hu hp hq
    rw [updateQty_valid hu hp hq]
    refine ⟨rfl, ?_⟩
    dsimp only
    cases hfind : findKey s uid pid with
    | none =>
      rw [findKey_none_map_id _ s hfind, hfind]
      rfl
    | some r =>
      apply findKey_map_update _ s r hfind
      intro x hx
      exact hx
  · intro u d hne
    unfold putCartHandler authenticateToken
    dsimp only
    rw [if_neg (by simp [hne])]
    cases d with
    | none => rfl
    | some pid2 =>
      dsimp only
      by_cases hp0 : (pid2 == 0) = true
      · rw [if_pos hp0]
      · rw [if_neg hp0]

/-- Witness for C4: setting quantity 0 on an existing line fails and changes
nothing; setting quantity 7 replaces the stored quantity 5 with 7. -/
theorem claim_C4_setQuantity_floor_witness :
    updateCartItemQuantity [⟨1, 2, "e", "a", 10, "i", 5⟩] 1 2 0 =
      (.error .invalidInput, [⟨1, 2, "e", "a", 10, "i", 5⟩]) ∧
    findKey (updateCartItemQuantity [⟨1, 2, "e", "a", 10, "i", 5⟩] 1 2 7).2 1 2 =
      some ⟨1, 2, "e", "a", 10, "i", 7⟩ := by
  have h0 := (claim_C4_setQuantity_floor [⟨1, 2, "e", "a", 10, "i", 5⟩] 1 2 0).1 (by decide)
  have h7 := ((claim_C4_setQuantity_floor [⟨1, 2, "e", "a", 10, "i", 5⟩] 1 2 7).2.1
    (by decide) (by decide) (by decide)).2
  refine ⟨h0, ?_⟩
  rw [h7]
  decide

/-- C5 counterexample: an authenticated `POST /api/cart` whose payload lacks
a product identifier is not answered with a validation error — the handler
forwards it to `addOrUpdateCartItem`, whose rejection surfaces as status 500
(the stored cart is unchanged, but the claimed 400-before-any-store-call does
not hold). -/
theorem claim_C5_validation_counterexample :
    (postCartHandler [] (.valid ⟨1, "e"⟩) ⟨none, some 1, some "t", some 5, some "i"⟩).status
      = 500 ∧
    (postCartHandler [] (.valid ⟨1, "e"⟩) ⟨none, some 1, some "t", some 5, some "i"⟩).store
      = ([] : Store) ∧
    (500 : Nat) ≠ 400 := by
  decide

/-- C5 (amended): on `PUT /api/cart/:productId` and
`DELETE /api/cart/:productId` a non-numeric (or zero) product id, and on PUT a
missing/non-numeric or sub-1 quantity, are rejected with status 400 before any
store call, leaving the table unchanged; an upsert payload without a product
identifier is instead rejected inside the store and surfaces as status 500,
also leaving the table unchanged. -/
theorem claim_C5_validation_amended (s : Store) (u : AuthUser) (body : PostCartBody)
    (qb : Option Int) :
    (u.id ≠ 0 → ∀ d : Option Int, (d = none ∨ d = some 0) →
      putCartHandler s (.valid u) d qb = ⟨400, none, s⟩) ∧
    (u.id ≠ 0 → ∀ pid : Int, (qb = none ∨ ∃ q, qb = some q ∧ q < 1) →
      pid ≠ 0 → putCartHandler s (.valid u) (some pid) qb = ⟨400, none, s⟩) ∧
    (u.id ≠ 0 → ∀ d : Option Int, (d = none ∨ d = some 0) →
      deleteCartItemHandler s (.valid u) d = ⟨400, none, s⟩) ∧
    (body.productId = none →
      (postCartHandler s (.valid u) body).status = 500 ∧
      (postCartHandler s (.valid u) body).store = s) := by
  refine ⟨?_, ?_, ?_, ?_⟩
  · intro hne d hd
    cases hd with
    | inl h =>
      subst h
      simp [putCartHandler, authenticateToken, hne]
    | inr h =>
      subst h
      simp [putCartHandler, authenticateToken, hne]
  · intro hne pid hq hp
    cases hq with
    | inl h =>
      subst h
      simp [putCartHandler, authenticateToken, hne, hp]
    | inr h =>
      obtain ⟨q, hqb, hlt⟩ := h
      subst hqb
      simp [putCartHandler, authenticateToken, hne, hp, hlt]
  · intro hne d hd
    cases hd with
    | inl h =>
      subst h
      simp [deleteCartItemHandler, authenticateToken, hne]
    | inr h =>
      subst h
      simp [deleteCartItemHandler, authenticateToken, hne]
  · intro hpid
    unfold postCartHandler authenticateToken
    dsimp only
    unfold addOrUpdateCartItem
    dsimp only
    rw [hpid]
    by_cases h1 : u.id ≤ 0
    · rw [if_pos h1]
      exact ⟨rfl, rfl⟩
    · rw [if_neg h1]
      by_cases h2 : u.email = ""
      · rw [if_pos h2]
        exact ⟨rfl, rfl⟩
      · rw [if_neg h2]
        exact ⟨rfl, rfl⟩

/-- Witness for the amended C5 at concrete inputs: PUT with a NaN product id,
PUT with quantity 0, DELETE with a NaN product id (all status 400, store
unchanged), and POST without a product id (status 500, store unchanged). -/
theorem claim_C5_validation_amended_witness :
    putCartHandler [⟨1, 2, "e", "a", 10, "i", 1⟩] (.valid ⟨1, "e"⟩) none (some 3) =
      ⟨400, none, [⟨1, 2, "e", "a", 10, "i", 1⟩]⟩ ∧
    putCartHandler [⟨1, 2, "e", "a", 10, "i", 1⟩] (.valid ⟨1, "e"⟩) (some 2) (some 0) =
      ⟨400, none, [⟨1, 2, "e", "a", 10, "i", 1⟩]⟩ ∧
    deleteCartItemHandler [⟨1, 2, "e", "a", 10, "i", 1⟩] (.valid ⟨1, "e"⟩) none =
      ⟨400, none, [⟨1, 2, "e", "a", 10, "i", 1⟩]⟩ ∧
    (postCartHandler [⟨1, 2, "e", "a", 10, "i", 1⟩] (.valid ⟨1, "e"⟩)
        ⟨none, some 1, some "t", some 5, some "i"⟩).status = 500 ∧
    (postCartHandler [⟨1, 2, "e", "a", 10, "i", 1⟩] (.valid ⟨1, "e"⟩)
        ⟨none, some 1, some "t", some 5, some "i"⟩).store = [⟨1, 2, "e", "a", 10, "i", 1⟩] := by
  have h0 := claim_C5_validation_amended [⟨1, 2, "e", "a", 10, "i", 1⟩] ⟨1, "e"⟩
      ⟨none, some 1, some "t", some 5, some "i"⟩ (some 0)
  have h3 := claim_C5_validation_amended [⟨1, 2, "e", "a", 10, "i", 1⟩] ⟨1, "e"⟩
      ⟨none, some 1, some "t", some 5, some "i"⟩ (some 3)
  have h4 := h0.2.2.2 rfl
  exact ⟨h3.1 (by decide) none (Or.inl rfl),
    h0.2.1 (by decide) 2 (Or.inr ⟨0, rfl, by decide⟩) (by decide),
    h0.2.2.1 (by decide) none (Or.inl rfl), h4.1, h4.2⟩

/-- C6: every successful (status 200) upsert, set-quantity or remove-line
request answers with the complete fresh `getCartByUserId` snapshot of the
user's cart taken after the mutation, never only the touched line. -/
theorem claim_C6_mutation_snapshot (s : Store) (u : AuthUser) (body : PostCartBody)
    (d qb : Option Int) :
    ((postCartHandler s (.valid u) body).status = 200 →
      (postCartHandler s (.valid u) body).items =
        some (cartSnapshot (postCartHandler s (.valid u) body).store u.id)) ∧
    ((putCartHandler s (.valid u) d qb).status = 200 →
      (putCartHandler s (.valid u) d qb).items =
        some (cartSnapshot (putCartHandler s (.valid u) d qb).store u.id)) ∧
    ((deleteCartItemHandler s (.valid u) d).status = 200 →
      (deleteCartItemHandler s (.valid u) d).items =
        some (cartSnapshot (deleteCartItemHandler s (.valid u) d).store u.id)) := by
  refine ⟨?_, ?_, ?_⟩
  · unfold postCartHandler authenticateToken
    dsimp only
    split
    · intro h
      simp at h
    · split
      · intro h
        simp at h
      · rename_i items heq
        intro _
        dsimp only
        rw [getCart_ok_snapshot heq]
  · unfold putCartHandler authenticateToken
    dsimp only
    split
    · intro h
      simp at h
    · split
      · intro h
        simp at h
      · split
        · intro h
          simp at h
        · split
          · intro h
            simp at h
          · split
            · intro h
              simp at h
            · split
              · intro h
                simp at h
              · split
                · split
                  · intro h
                    simp at h
                  · rename_i items heq
                    intro _
                    dsimp only
                    rw [getCart_ok_snapshot heq]
                · intro h
                  simp at h
  · unfold deleteCartItemHandler authenticateToken
    dsimp only
    split
    · intro h
      simp at h
    · split
      · intro h
        simp at h
      · split
        · intro h
          simp at h
        · split
          · intro h
            simp at h
          · split
            · intro h
              simp at h
            · rename_i items heq
              intro _
              dsimp only
              rw [getCart_ok_snapshot heq]

/-- Witness for C6 at concrete successful requests: POST upsert of product 2,
PUT quantity 3 on product 2, and DELETE of product 2 for user 1 all answer
with the snapshot of the post-mutation table. -/
theorem claim_C6_mutation_snapshot_witness :
    (postCartHandler [⟨1, 2, "e", "a", 10, "i", 1⟩] (.valid ⟨1, "e"⟩)
        ⟨some 2, some 1, some "t", some 5, some "j"⟩).items =
      some (cartSnapshot (postCartHandler [⟨1, 2, "e", "a", 10, "i", 1⟩] (.valid ⟨1, "e"⟩)
        ⟨some 2, some 1, some "t", some 5, some "j"⟩).store 1) ∧
    (putCartHandler [⟨1, 2, "e", "a", 10, "i", 1⟩] (.valid ⟨1, "e"⟩) (some 2) (some 3)).items =
      some (cartSnapshot (putCartHandler [⟨1, 2, "e", "a", 10, "i", 1⟩] (.valid ⟨1, "e"⟩)
        (some 2) (some 3)).store 1) ∧
    (deleteCartItemHandler [⟨1, 2, "e", "a", 10, "i", 1⟩] (.valid ⟨1, "e"⟩) (some 2)).items =
      some (cartSnapshot (deleteCartItemHandler [⟨1, 2, "e", "a", 10, "i", 1⟩]
        (.valid ⟨1, "e"⟩) (some 2)).store 1) := by
  have h := claim_C6_mutation_snapshot [⟨1, 2, "e", "a", 10, "i", 1⟩] ⟨1, "e"⟩
      ⟨some 2, some 1, some "t", some 5, some "j"⟩ (some 2) (some 3)
  exact ⟨h.1 (by decide), h.2.1 (by decide), h.2.2 (by decide)⟩

/-- C7: `DELETE /api/cart` (clear) is total and idempotent: for every
authenticated user it answers 200 with an empty snapshot — also on an
already-empty cart, since the handler ignores `clearCart`'s boolean result —
and clearing again returns the identical successful result. -/
theorem claim_C7_clear_total_idempotent (s : Store) (u : AuthUser) (hu : 0 < u.id) :
    (deleteCartHandler s (.valid u)).status = 200 ∧
    (deleteCartHandler s (.valid u)).items = some [] ∧
    deleteCartHandler (deleteCartHandler s (.valid u)).store (.valid u) =
      deleteCartHandler s (.valid u) := by
  have h1 := deleteCart_ok s u hu
  refine ⟨by rw [h1], by rw [h1], ?_⟩
  rw [h1]
  dsimp only
  rw [deleteCart_ok _ u hu, filter_ne_idem]

/-- Witness for C7: clearing the already-empty cart of user 7 (the table holds
only a row of user 1) answers 200 with an empty snapshot, twice. -/
theorem claim_C7_clear_total_idempotent_witness :
    (deleteCartHandler [⟨1, 2, "e", "a", 10, "i", 1⟩] (.valid ⟨7, "f"⟩)).status = 200 ∧
    (deleteCartHandler [⟨1, 2, "e", "a", 10, "i", 1⟩] (.valid ⟨7, "f"⟩)).items = some [] ∧
    deleteCartHandler (deleteCartHandler [⟨1, 2, "e", "a", 10, "i", 1⟩]
        (.valid ⟨7, "f"⟩)).store (.valid ⟨7, "f"⟩) =
      deleteCartHandler [⟨1, 2, "e", "a", 10, "i", 1⟩] (.valid ⟨7, "f"⟩) :=
  claim_C7_clear_total_idempotent [⟨1, 2, "e", "a", 10, "i", 1⟩] ⟨7, "f"⟩ (by decide)

/-- C8: the client rollback in `addToCart` (Products.js) is NOT exact.  With
product 42 already in the cart at quantity 1, a failed add leaves the visible
cart showing quantity 2: the optimistic `updatedCart[i].quantity += 1` mutates
the item object shared with the captured pre-mutation array, so
`setCartItems(cartItems)` restores an already-mutated snapshot.  The claimed
restoration to the exact pre-mutation state does not happen. -/
theorem claim_C8_addToCart_rollback_inexact :
    renderCart (addToCart ⟨[⟨42, "t", 10, "i", 1⟩], [0]⟩ ⟨42, "t", 10, "i", 1⟩ false) =
      [⟨42, "t", 10, "i", 2⟩] ∧
    renderCart ⟨[⟨42, "t", 10, "i", 1⟩], [0]⟩ = [⟨42, "t", 10, "i", 1⟩] ∧
    renderCart (addToCart ⟨[⟨42, "t", 10, "i", 1⟩], [0]⟩ ⟨42, "t", 10, "i", 1⟩ false) ≠
      renderCart ⟨[⟨42, "t", 10, "i", 1⟩], [0]⟩ := by
  decide

/-- C9 counterexample: an expired credential is answered with status 403
(`INVALID_TOKEN`), not 401, and the client's cart error handler treats 403 as
a generic error — it does not route the user to re-authenticate, contradicting
the claim that every credential failure leads the client to re-authenticate. -/
theorem claim_C9_auth_counterexample :
    authenticateToken .expired = .error 403 ∧
    cartErrorReaction 403 = .genericError ∧
    ClientReaction.genericError ≠ ClientReaction.reauthenticate :=
  ⟨rfl, rfl, by decide⟩

/-- C9 (amended): a missing credential yields 401 and an invalid or expired
credential yields 403 — both distinct from the validation (400), not-found
(404) and storage (500) statuses — but the client routes to re-authentication
only on 401; a 403 from an invalid/expired token is handled as a generic
error. -/
theorem claim_C9_auth_statuses :
    authenticateToken .missing = .error 401 ∧
    authenticateToken .invalid = .error 403 ∧
    authenticateToken .expired = .error 403 ∧
    cartErrorReaction 401 = .reauthenticate ∧
    cartErrorReaction 403 = .genericError ∧
    (401 : Nat) ≠ 400 ∧ (401 : Nat) ≠ 404 ∧ (401 : Nat) ≠ 500 ∧
    (403 : Nat) ≠ 400 ∧ (403 : Nat) ≠ 404 ∧ (403 : Nat) ≠ 500 :=
  ⟨rfl, rfl, rfl, rfl, rfl, by decide, by decide, by decide, by decide, by decide, by decide⟩

/-- C10: frame property.  Every store mutation invoked for one user leaves the
rows of every other user exactly as they were. -/
theorem claim_C10_frame (s : Store) (op : CartOp) (v : Int) (hv : v ≠ opUser op) :
    (applyOp s op).filter (fun r => r.user_id == v) =
      s.filter (fun r => r.user_id == v) := by
  cases op with
  | save uid e its =>
    have hvu : v ≠ uid := hv
    show ((saveCart s uid e its).2.filter _) = _
    unfold saveCart
    by_cases h1 : uid ≤ 0
    · rw [if_pos h1]
    · rw [if_neg h1]
      by_cases h2 : e = ""
      · rw [if_pos h2]
      · rw [if_neg h2]
        cases hrun : runInserts (s.filter fun r => r.user_id != uid) uid e its with
        | error e2 => rfl
        | ok t =>
          dsimp only
          rw [runInserts_filter_other hvu e its _ t hrun]
          exact filter_user_of_pred (fun r hr => by rw [hr]; simp [hvu]) s
  | upsert uid e it =>
    have hvu : v ≠ uid := hv
    show ((addOrUpdateCartItem s uid e it).2.filter _) = _
    unfold addOrUpdateCartItem
    by_cases h1 : uid ≤ 0
    · rw [if_pos h1]
    · rw [if_neg h1]
      by_cases h2 : e = ""
      · rw [if_pos h2]
      · rw [if_neg h2]
        cases hid : it.id with
        | none => rfl
        | some pid =>
          dsimp only
          by_cases h3 : (pid == 0) = true
          · rw [if_pos h3]
          · rw [if_neg h3]
            by_cases h4 : hasKey s uid pid = true
            · rw [if_pos h4]
              dsimp only
              apply filter_user_map _ _ s
              · intro r hr
                have hkm : ¬ keyMatch uid pid r = true := by
                  intro hc
                  exact hvu (hr.symm.trans (keyMatch_iff.mp hc).1)
                rw [if_neg hkm]
              · intro r
                by_cases hc : keyMatch uid pid r = true
                · rw [if_pos hc]
                · rw [if_neg hc]
            · rw [if_neg h4]
              dsimp only
              exact filter_user_append_other s _ (fun hc => hvu hc.symm)
  | setQty uid pid q2 =>
    have hvu : v ≠ uid := hv
    show ((updateCartItemQuantity s uid pid q2).2.filter _) = _
    unfold updateCartItemQuantity
    by_cases h1 : uid ≤ 0
    · rw [if_pos h1]
    · rw [if_neg h1]
      by_cases h2 : pid ≤ 0
      · rw [if_pos h2]
      · rw [if_neg h2]
        by_cases h3 : q2 ≤ 0
        · rw [if_pos h3]
        · rw [if_neg h3]
          dsimp only
          apply filter_user_map _ _ s
          · intro r hr
            have hkm : ¬ keyMatch uid pid r = true := by
              intro hc
              exact hvu (hr.symm.trans (keyMatch_iff.mp hc).1)
            rw [if_neg hkm]
          · intro r
            by_cases hc : keyMatch uid pid r = true
            · rw [if_pos hc]
            · rw [if_neg hc]
  | removeLine uid pid =>
    have hvu : v ≠ uid := hv
    show ((removeCartItem s uid pid).2.filter _) = _
    unfold removeCartItem
    by_cases h1 : uid ≤ 0
    · rw [if_pos h1]
    · rw [if_neg h1]
      by_cases h2 : pid ≤ 0
      · rw [if_pos h2]
      · rw [if_neg h2]
        dsimp only
        apply filter_user_of_pred _ s
        intro r hr
        have hkm : keyMatch uid pid r = false := by
          rw [Bool.eq_false_iff]
          intro hc
          exact hvu (hr.symm.trans (keyMatch_iff.mp hc).1)
        rw [hkm]
        rfl
  | clear uid =>
    have hvu : v ≠ uid := hv
    show ((clearCart s uid).2.filter _) = _
    unfold clearCart
    by_cases h1 : uid ≤ 0
    · rw [if_pos h1]
    · rw [if_neg h1]
      dsimp only
      exact filter_user_of_pred (fun r hr => by rw [hr]; simp [hvu]) s

/-- Witness for C10: clearing user 1's cart leaves user 5's row untouched. -/
theorem claim_C10_frame_witness :
    (applyOp [⟨1, 2, "e", "a", 10, "i", 1⟩, ⟨5, 2, "f", "b", 20, "j", 2⟩]
        (CartOp.clear 1)).filter (fun r => r.user_id == 5) =
      ([⟨1, 2, "e", "a", 10, "i", 1⟩, ⟨5, 2, "f", "b", 20, "j", 2⟩] : Store).filter
        (fun r => r.user_id == 5) :=
  claim_C10_frame [⟨1, 2, "e", "a", 10, "i", 1⟩, ⟨5, 2, "f", "b", 20, "j", 2⟩]
    (CartOp.clear 1) 5 (by decide)

end Ecommerce
